import Mathlib

/-!
Verification of the buck2 MCP server (`src/main.py`).

The server is a thin wrapper around the external `buck2` executable: four
tool handlers (`buck2_build`, `buck2_test`, `buck2_query`, `buck2_targets`)
delegate to a single process runner `run_buck2_command`, and two resource
readers (`get_buck2_config`, `get_buck2_root`) read ambient filesystem state.

Embedding choices:
* Python dicts are embedded as association lists `List (String × JVal)` in
  insertion order, since Python dicts preserve insertion order and the
  handlers' results are serialized to the caller key by key.
* The outcome of launching a subprocess is an explicit environment
  `Exec : List String → LaunchOutcome`: for a given argv the OS either runs
  the process (yielding return code, stdout, stderr) or raises
  FileNotFoundError (the executable is absent from the search path).  The
  `try/except FileNotFoundError` of `run_buck2_command` is embedded by
  `subprocess_run` returning `Except` and the runner consuming both branches.
* `subprocess.run` can also raise launch exceptions the source does not
  catch, such as PermissionError for a binary that is present but not
  executable.  The full model `ExecFull : List String → LaunchOutcomeFull`
  adds this third outcome; the `_full` variants of the runner and the
  handlers return `Except String Dict`, whose `Except.error` branch is an
  exception propagating to the caller: `run_buck2_command_full` catches
  only FileNotFoundError, exactly as the source does.
* `json.loads` is an abstract partial parser `String → Option JVal`
  (`none` embeds `json.JSONDecodeError`).
* Filesystem state is `FS`: an existence predicate and a fallible reader
  (`Except` error embeds an OSError whose `str` is the payload).
* `Path(root).glob("**/BUCK")` is an abstract fallible enumeration
  `String → Except String (List String)`; the `Except.error` branch embeds
  an arbitrary exception caught by `get_buck2_root`'s outer `try/except`.
* Python `str.strip()` is embedded as `py_strip` (leading/trailing
  ASCII whitespace removal, which agrees on the stdout values at issue).
-/

/-- JSON-like values: the payloads stored in the result dicts. -/
inductive JVal where
  | str (s : String)
  | bool (b : Bool)
  | int (n : Int)
  | arr (elems : List JVal)
  | obj (fields : List (String × JVal))
deriving BEq

/-- A Python dict with string keys, in insertion order. -/
abbrev Dict := List (String × JVal)

/-- `d[k]` as a total lookup: first binding of `k`, if any. -/
def dictGet (d : Dict) (k : String) : Option JVal :=
  (d.find? (fun p => p.1 == k)).map (fun p => p.2)

/-- `d[k] = v`: overwrite an existing binding, else append (insertion order). -/
def dictSet (d : Dict) (k : String) (v : JVal) : Dict :=
  if (d.find? (fun p => p.1 == k)).isSome then
    d.map (fun p => if p.1 == k then (k, v) else p)
  else
    d ++ [(k, v)]

/-- The keys of a dict, in order. -/
def dictKeys (d : Dict) : List String :=
  d.map (fun p => p.1)

/-- Python truthiness of an optional dict entry, for the boolean entries
tested by the source (`result["success"]`). -/
def isTruthy (v : Option JVal) : Bool :=
  match v with
  | some (.bool b) => b
  | _ => false

/-- Extract a string entry (`result["stdout"]` etc.); the runner always
stores strings under the keys this is applied to. -/
def getStrD (v : Option JVal) : String :=
  match v with
  | some (.str s) => s
  | _ => ""

/-- The launch outcomes the runner's `except FileNotFoundError` clause
distinguishes: either the process runs to completion, or the launch raises
FileNotFoundError because the executable is absent from the search path.
Other launch exceptions (e.g. PermissionError for a present but
non-executable binary) are not caught by the source; they are modelled
separately by `LaunchOutcomeFull`, under which the runner can propagate. -/
inductive LaunchOutcome where
  | ran (returncode : Int) (stdout stderr : String)
  | fileNotFound

/-- The ambient subprocess environment: the outcome of launching each argv. -/
abbrev Exec := List String → LaunchOutcome

/-- `subprocess.run(cmd, capture_output=True, text=True, check=False)`:
returns the completed process's data, or raises FileNotFoundError
(embedded as the `Except.error` branch). -/
def subprocess_run (env : Exec) (cmd : List String) :
    Except Unit (Int × String × String) :=
  match env cmd with
  | .ran rc out err => .ok (rc, out, err)
  | .fileNotFound => .error ()

/-- The synthetic stderr message of the tool-not-found result
(src/main.py line 35). -/
def buck2_not_found_msg : String :=
  "buck2 command not found. Please ensure Buck2 is installed and in PATH."

/-- `run_buck2_command` (src/main.py lines 12-38): prepend the tool name to
the argument vector, launch it, and normalize the outcome into a result
dict; a FileNotFoundError from the launch is caught and replaced by a
synthesized result.  The `cwd` argument only selects the child's working
directory and is absorbed into the `Exec` environment. -/
def run_buck2_command (args : List String) (env : Exec) : Dict :=
  let cmd := ["buck2"] ++ args
  match subprocess_run env cmd with
  | .ok (rc, out, err) =>
      [("success", .bool (rc == 0)),
       ("stdout", .str out),
       ("stderr", .str err),
       ("returncode", .int rc),
       ("command", .str (String.intercalate " " cmd))]
  | .error _ =>
      [("success", .bool false),
       ("stdout", .str ""),
       ("stderr", .str buck2_not_found_msg),
       ("returncode", .int 127),
       ("command", .str (String.intercalate " " (["buck2"] ++ args)))]

/-- `buck2_build` (src/main.py lines 41-49). -/
def buck2_build (targets : String) (env : Exec) : Dict :=
  run_buck2_command ["build", targets] env

/-- `buck2_test` (src/main.py lines 52-60). -/
def buck2_test (targets : String) (env : Exec) : Dict :=
  run_buck2_command ["test", targets] env

/-- `buck2_query` (src/main.py lines 63-81): run `cquery` and, when the
requested format is `json` and the run succeeded, try to decode stdout and
attach it as `parsed_output`; a decode failure is silently tolerated. -/
def buck2_query (query output_format : String) (env : Exec)
    (json_loads : String → Option JVal) : Dict :=
  let args := ["cquery", query, "--output-format", output_format]
  let result := run_buck2_command args env
  if output_format == "json" && isTruthy (dictGet result "success") then
    match json_loads (getStrD (dictGet result "stdout")) with
    | some v => dictSet result "parsed_output" v
    | none => result
  else
    result

/-- The default pattern of `buck2_targets` (src/main.py line 85). -/
def buck2_targets_default_pattern : String := "//..."

/-- `buck2_targets` (src/main.py lines 84-92); `pattern` defaults to
`buck2_targets_default_pattern` at the call boundary. -/
def buck2_targets (pattern : String) (env : Exec) : Dict :=
  run_buck2_command ["targets", pattern] env

/-- Ambient filesystem state: existence of a path, and reading a file
(which can fail with an error whose rendering is the payload). -/
structure FS where
  pathExists : String → Bool
  readFile : String → Except String String

/-- The two well-known config file names (src/main.py line 98). -/
def config_files : List String := [".buckconfig", ".buckconfig.local"]

/-- One iteration of the loop of `get_buck2_config` (src/main.py lines
101-109): the content-or-status recorded for one config file name. -/
def readConfigEntry (fs : FS) (config_file : String) : String :=
  if fs.pathExists config_file then
    match fs.readFile config_file with
    | .ok content => content
    | .error e => "Error reading " ++ config_file ++ ": " ++ e
  else
    "File not found"

/-- The mapping built by `get_buck2_config` before serialization
(src/main.py lines 98-109): one entry per well-known file name, in order. -/
def get_buck2_config_content (fs : FS) : List (String × String) :=
  config_files.map (fun f => (f, readConfigEntry fs f))

/-- Escaping of one character as in `json.dumps` (the characters occurring
specially in the payloads at issue). -/
def pyJsonEscapeChar (c : Char) : String :=
  if c = '"' then "\\\""
  else if c = '\\' then "\\\\"
  else if c = '\n' then "\\n"
  else if c = '\t' then "\\t"
  else if c = '\r' then "\\r"
  else String.singleton c

/-- String escaping as in `json.dumps`. -/
def pyJsonEscape (s : String) : String :=
  String.join (s.toList.map pyJsonEscapeChar)

/-- `json.dumps(mapping, indent=2)` for a string-to-string mapping. -/
def json_dumps_indent2 (kvs : List (String × String)) : String :=
  if kvs.isEmpty then "\x7b\x7d"
  else
    "\x7b\n"
      ++ String.intercalate ",\n"
          (kvs.map (fun p => "  \"" ++ pyJsonEscape p.1 ++ "\": \"" ++ pyJsonEscape p.2 ++ "\""))
      ++ "\n\x7d"

/-- `get_buck2_config` (src/main.py lines 95-111): the serialized mapping. -/
def get_buck2_config (fs : FS) : String :=
  json_dumps_indent2 (get_buck2_config_content fs)

/-- Python `str.strip()`: drop leading and trailing whitespace. -/
def py_strip (s : String) : String :=
  String.mk (((s.toList.dropWhile Char.isWhitespace).reverse.dropWhile Char.isWhitespace).reverse)

/-- The payload serialized by `get_buck2_root`: either the project root with
the enumerated BUCK files, or an error object. -/
inductive RootResult where
  | rootInfo (project_root : String) (buck_files : List String)
  | rootError (error : String)
deriving BEq

/-- `get_buck2_root` (src/main.py lines 114-128): ask the runner for the
project root; on success, trim stdout and (when that path exists)
enumerate BUCK files under it; on failure, report the captured stderr; any
exception raised inside the body — here, from the glob traversal — is
caught by the outer `try/except` and reported as an error object. -/
def get_buck2_root (env : Exec) (fs : FS)
    (glob_buck : String → Except String (List String)) : RootResult :=
  let result := run_buck2_command ["root", "--kind=project"] env
  if isTruthy (dictGet result "success") then
    let root_path := py_strip (getStrD (dictGet result "stdout"))
    match (if fs.pathExists root_path then glob_buck root_path else .ok []) with
    | .ok files => .rootInfo root_path files
    | .error e => .rootError e
  else
    .rootError (getStrD (dictGet result "stderr"))

/-! ### Helper lemmas about the runner and the dict operations -/

theorem run_buck2_command_ran (args : List String) (env : Exec) (rc : Int)
    (out err : String) (h : env ("buck2" :: args) = .ran rc out err) :
    run_buck2_command args env =
      [("success", .bool (rc == 0)),
       ("stdout", .str out),
       ("stderr", .str err),
       ("returncode", .int rc),
       ("command", .str (String.intercalate " " (["buck2"] ++ args)))] := by
  simp [run_buck2_command, subprocess_run, h]

theorem run_buck2_command_fnf (args : List String) (env : Exec)
    (h : env ("buck2" :: args) = .fileNotFound) :
    run_buck2_command args env =
      [("success", .bool false),
       ("stdout", .str ""),
       ("stderr", .str buck2_not_found_msg),
       ("returncode", .int 127),
       ("command", .str (String.intercalate " " (["buck2"] ++ args)))] := by
  simp [run_buck2_command, subprocess_run, h]

theorem dictGet_append_single_ne (d : Dict) (p : String) (v : JVal) (k : String)
    (h : ¬ k = p) : dictGet (d ++ [(p, v)]) k = dictGet d k := by
  unfold dictGet
  rw [List.find?_append]
  cases hf : d.find? (fun q => q.1 == k) with
  | some q => simp [hf]
  | none =>
      have : (p == k) = false := by
        simp only [beq_eq_false_iff_ne, ne_eq]
        exact fun hpk => h hpk.symm
      simp [hf, List.find?, this]

theorem dictSet_of_absent (d : Dict) (k : String) (v : JVal)
    (h : dictGet d k = none) : dictSet d k v = d ++ [(k, v)] := by
  have hf : d.find? (fun p => p.1 == k) = none := by
    unfold dictGet at h
    exact Option.map_eq_none'.mp h
  unfold dictSet
  simp [hf]

theorem run_parsed_output_none (args : List String) (env : Exec) :
    dictGet (run_buck2_command args env) "parsed_output" = none := by
  cases h : env ("buck2" :: args) with
  | ran rc out err =>
      rw [run_buck2_command_ran args env rc out err h]
      simp [dictGet, List.find?]
  | fileNotFound =>
      rw [run_buck2_command_fnf args env h]
      simp [dictGet, List.find?]

theorem buck2_query_eq (q fmt : String) (env : Exec)
    (json_loads : String → Option JVal) :
    buck2_query q fmt env json_loads =
      (if fmt == "json" && isTruthy
            (dictGet (run_buck2_command ["cquery", q, "--output-format", fmt] env) "success") then
        match json_loads (getStrD
            (dictGet (run_buck2_command ["cquery", q, "--output-format", fmt] env) "stdout")) with
        | some v =>
            run_buck2_command ["cquery", q, "--output-format", fmt] env ++ [("parsed_output", v)]
        | none => run_buck2_command ["cquery", q, "--output-format", fmt] env
      else run_buck2_command ["cquery", q, "--output-format", fmt] env) := by
  unfold buck2_query
  cases hc : (fmt == "json" && isTruthy
      (dictGet (run_buck2_command ["cquery", q, "--output-format", fmt] env) "success")) with
  | false => simp [hc]
  | true =>
      simp only [hc, if_true]
      cases hj : json_loads (getStrD
          (dictGet (run_buck2_command ["cquery", q, "--output-format", fmt] env) "stdout")) with
      | some v =>
          simp only [hj]
          exact dictSet_of_absent _ _ _ (run_parsed_output_none _ env)
      | none => simp [hj]

/-! ### Claim theorems -/

/-- The shape of the result synthesized when launching the tool raises
FileNotFoundError: failure, exit code 127, empty stdout, and a non-empty
stderr message naming the missing tool. -/
def fnfResult (r : Dict) : Prop :=
  dictGet r "success" = some (.bool false) ∧
  dictGet r "returncode" = some (.int 127) ∧
  dictGet r "stdout" = some (.str "") ∧
  ∃ msg, dictGet r "stderr" = some (.str msg) ∧ ¬ msg = "" ∧
    ∃ before after, msg = before ++ "buck2" ++ after

theorem fnfResult_of_fnf (args : List String) (env : Exec)
    (h : env ("buck2" :: args) = .fileNotFound) :
    fnfResult (run_buck2_command args env) := by
  rw [run_buck2_command_fnf args env h]
  refine ⟨rfl, rfl, rfl, buck2_not_found_msg, rfl, by decide, "",
    " command not found. Please ensure Buck2 is installed and in PATH.", by decide⟩

theorem buck2_query_of_not_success (q fmt : String) (env : Exec)
    (json_loads : String → Option JVal)
    (h : isTruthy (dictGet
        (run_buck2_command ["cquery", q, "--output-format", fmt] env) "success") = false) :
    buck2_query q fmt env json_loads =
      run_buck2_command ["cquery", q, "--output-format", fmt] env := by
  rw [buck2_query_eq]
  simp [h]

/-- C1: for every operation (build, test, query, list-targets), if launching
the external tool raises file-not-found, the operation returns a result with
success=false, exit code 127, empty stdout, and a non-empty stderr message
naming the missing tool; the exception is caught, never propagated. -/
theorem c1_tool_not_found (targets q fmt pat : String) (env : Exec)
    (json_loads : String → Option JVal) :
    (env ["buck2", "build", targets] = .fileNotFound →
      fnfResult (buck2_build targets env)) ∧
    (env ["buck2", "test", targets] = .fileNotFound →
      fnfResult (buck2_test targets env)) ∧
    (env ["buck2", "cquery", q, "--output-format", fmt] = .fileNotFound →
      fnfResult (buck2_query q fmt env json_loads)) ∧
    (env ["buck2", "targets", pat] = .fileNotFound →
      fnfResult (buck2_targets pat env)) := by
  refine ⟨fun h => fnfResult_of_fnf _ env h, fun h => fnfResult_of_fnf _ env h,
    fun h => ?_, fun h => fnfResult_of_fnf _ env h⟩
  rw [buck2_query_of_not_success q fmt env json_loads
    (by rw [run_buck2_command_fnf ["cquery", q, "--output-format", fmt] env h]; rfl)]
  exact fnfResult_of_fnf _ env h

/-- The environment in which no argv can be launched. -/
def envFnfW : Exec := fun _ => .fileNotFound

/-- Witness for C1 at concrete inputs. -/
theorem c1_tool_not_found_witness :
    fnfResult (buck2_build "//..." envFnfW) ∧
    fnfResult (buck2_test "//..." envFnfW) ∧
    fnfResult (buck2_query "deps(//...)" "json" envFnfW (fun _ => none)) ∧
    fnfResult (buck2_targets "//..." envFnfW) :=
  ⟨(c1_tool_not_found "//..." "deps(//...)" "json" "//..." envFnfW (fun _ => none)).1 rfl,
   (c1_tool_not_found "//..." "deps(//...)" "json" "//..." envFnfW (fun _ => none)).2.1 rfl,
   (c1_tool_not_found "//..." "deps(//...)" "json" "//..." envFnfW (fun _ => none)).2.2.1 rfl,
   (c1_tool_not_found "//..." "deps(//...)" "json" "//..." envFnfW (fun _ => none)).2.2.2 rfl⟩

/-- The invariant tying the success flag to the exit code of a result. -/
def successIffZero (r : Dict) : Prop :=
  dictGet r "success" = some (.bool true) ↔ dictGet r "returncode" = some (.int 0)

theorem run_successIffZero (args : List String) (env : Exec) :
    successIffZero (run_buck2_command args env) := by
  cases h : env ("buck2" :: args) with
  | ran rc out err =>
      rw [run_buck2_command_ran args env rc out err h]
      simp [successIffZero, dictGet, List.find?]
  | fileNotFound =>
      rw [run_buck2_command_fnf args env h]
      simp [successIffZero, dictGet, List.find?]

theorem buck2_query_dictGet_ne (q fmt : String) (env : Exec)
    (json_loads : String → Option JVal) (k : String) (hk : ¬ k = "parsed_output") :
    dictGet (buck2_query q fmt env json_loads) k =
      dictGet (run_buck2_command ["cquery", q, "--output-format", fmt] env) k := by
  rw [buck2_query_eq]
  cases hc : (fmt == "json" && isTruthy
      (dictGet (run_buck2_command ["cquery", q, "--output-format", fmt] env) "success")) with
  | false => simp [hc]
  | true =>
      simp only [hc, if_true]
      cases hj : json_loads (getStrD
          (dictGet (run_buck2_command ["cquery", q, "--output-format", fmt] env) "stdout")) with
      | some v =>
          simp only [hj]
          exact dictGet_append_single_ne _ _ _ _ hk
      | none => simp [hj]

/-- C2: for every result produced by the runner or by any operation
(including the synthesized tool-not-found result), success is true exactly
when the recorded exit code is 0. -/
theorem c2_success_iff_exit_zero (args : List String) (targets q fmt pat : String)
    (env : Exec) (json_loads : String → Option JVal) :
    successIffZero (run_buck2_command args env) ∧
    successIffZero (buck2_build targets env) ∧
    successIffZero (buck2_test targets env) ∧
    successIffZero (buck2_query q fmt env json_loads) ∧
    successIffZero (buck2_targets pat env) := by
  refine ⟨run_successIffZero args env, run_successIffZero _ env, run_successIffZero _ env,
    ?_, run_successIffZero _ env⟩
  unfold successIffZero
  rw [buck2_query_dictGet_ne q fmt env json_loads "success" (by decide),
    buck2_query_dictGet_ne q fmt env json_loads "returncode" (by decide)]
  exact run_successIffZero _ env

/-- C5: each of build, test and list-targets passes exactly the documented
argument vector to the process runner, and the list-targets pattern defaults
to `//...`. -/
theorem c5_argument_vectors (targets pat : String) (env : Exec) :
    buck2_build targets env = run_buck2_command ["build", targets] env ∧
    buck2_test targets env = run_buck2_command ["test", targets] env ∧
    buck2_targets pat env = run_buck2_command ["targets", pat] env ∧
    buck2_targets_default_pattern = "//..." :=
  ⟨rfl, rfl, rfl, rfl⟩

/-- C6 (counterexample): at a concrete input the runner's result carries its
integer exit code under the key `returncode`, and no key `exit_code` exists,
contradicting the claimed field list. -/
theorem c6_exit_code_key_counterexample :
    dictKeys (run_buck2_command ["build", "//..."] envFnfW)
        = ["success", "stdout", "stderr", "returncode", "command"] ∧
    ¬ "exit_code" ∈ dictKeys (run_buck2_command ["build", "//..."] envFnfW) := by
  constructor
  · rfl
  · decide

/-- C6 (amended): every result produced by the runner contains exactly the
keys success, stdout, stderr, returncode and command, in that order, and the
command entry is the argv joined with spaces for display. -/
theorem c6_result_fields (args : List String) (env : Exec) :
    dictKeys (run_buck2_command args env)
        = ["success", "stdout", "stderr", "returncode", "command"] ∧
    dictGet (run_buck2_command args env) "command"
        = some (.str (String.intercalate " " (["buck2"] ++ args))) := by
  cases h : env ("buck2" :: args) with
  | ran rc out err =>
      rw [run_buck2_command_ran args env rc out err h]
      exact ⟨rfl, rfl⟩
  | fileNotFound =>
      rw [run_buck2_command_fnf args env h]
      exact ⟨rfl, rfl⟩

/-- C9: for every filesystem state, the configuration mapping has exactly
the keys `.buckconfig` and `.buckconfig.local`, in that order. -/
theorem c9_config_keys (fs : FS) :
    (get_buck2_config_content fs).map Prod.fst = [".buckconfig", ".buckconfig.local"] := by
  simp [get_buck2_config_content, config_files]

/-- A result dict that structurally describes its outcome: it carries a
boolean success flag and an integer exit code. -/
def structuredResult (r : Dict) : Prop :=
  (∃ b, dictGet r "success" = some (.bool b)) ∧
  (∃ rc, dictGet r "returncode" = some (.int rc))

theorem run_structuredResult (args : List String) (env : Exec) :
    structuredResult (run_buck2_command args env) := by
  cases h : env ("buck2" :: args) with
  | ran rc out err =>
      rw [run_buck2_command_ran args env rc out err h]
      exact ⟨⟨rc == 0, rfl⟩, ⟨rc, rfl⟩⟩
  | fileNotFound =>
      rw [run_buck2_command_fnf args env h]
      exact ⟨⟨false, rfl⟩, ⟨127, rfl⟩⟩

theorem buck2_query_structuredResult (q fmt : String) (env : Exec)
    (json_loads : String → Option JVal) :
    structuredResult (buck2_query q fmt env json_loads) := by
  unfold structuredResult
  rw [buck2_query_dictGet_ne q fmt env json_loads "success" (by decide),
    buck2_query_dictGet_ne q fmt env json_loads "returncode" (by decide)]
  exact run_structuredResult _ env

/-- C4: the query result carries `parsed_output` exactly when the requested
format is json, the run succeeded, and stdout decodes, in which case it is
the decoded value; and the success and exit-code entries of the underlying
run are unchanged. -/
theorem c4_parsed_output (q fmt : String) (env : Exec)
    (json_loads : String → Option JVal) :
    dictGet (buck2_query q fmt env json_loads) "parsed_output" =
      (if fmt == "json" && isTruthy
          (dictGet (run_buck2_command ["cquery", q, "--output-format", fmt] env) "success") then
        json_loads (getStrD
          (dictGet (run_buck2_command ["cquery", q, "--output-format", fmt] env) "stdout"))
      else none) ∧
    dictGet (buck2_query q fmt env json_loads) "success" =
      dictGet (run_buck2_command ["cquery", q, "--output-format", fmt] env) "success" ∧
    dictGet (buck2_query q fmt env json_loads) "returncode" =
      dictGet (run_buck2_command ["cquery", q, "--output-format", fmt] env) "returncode" := by
  refine ⟨?_, buck2_query_dictGet_ne q fmt env json_loads "success" (by decide),
    buck2_query_dictGet_ne q fmt env json_loads "returncode" (by decide)⟩
  rw [buck2_query_eq]
  cases hc : (fmt == "json" && isTruthy
      (dictGet (run_buck2_command ["cquery", q, "--output-format", fmt] env) "success")) with
  | false => simp [hc, run_parsed_output_none]
  | true =>
      simp only [hc, if_true]
      cases hj : json_loads (getStrD
          (dictGet (run_buck2_command ["cquery", q, "--output-format", fmt] env) "stdout")) with
      | some v =>
          simp only [hj]
          have habs := run_parsed_output_none ["cquery", q, "--output-format", fmt] env
          unfold dictGet at habs ⊢
          rw [List.find?_append, Option.map_eq_none'.mp habs]
          rfl
      | none => simp [hj, run_parsed_output_none]

/-- C7: for each of the two well-known config file names, the configuration
mapping records the file's content when it is readable, the marker
`File not found` when it is absent, and a per-file error message when
reading fails; the whole payload is the indented serialization of that
mapping. -/
theorem c7_config_reader (fs : FS) :
    get_buck2_config fs = json_dumps_indent2 (get_buck2_config_content fs) ∧
    ∀ f, f ∈ config_files →
      (fs.pathExists f = false →
        (get_buck2_config_content fs).lookup f = some "File not found") ∧
      (∀ c, fs.pathExists f = true → fs.readFile f = .ok c →
        (get_buck2_config_content fs).lookup f = some c) ∧
      (∀ e, fs.pathExists f = true → fs.readFile f = .error e →
        (get_buck2_config_content fs).lookup f =
          some ("Error reading " ++ f ++ ": " ++ e)) := by
  refine ⟨rfl, ?_⟩
  intro f hf
  have hcases : f = ".buckconfig" ∨ f = ".buckconfig.local" := by
    simpa [config_files] using hf
  rcases hcases with rfl | rfl <;>
    exact ⟨fun h0 => by simp [get_buck2_config_content, config_files, readConfigEntry,
        List.lookup, h0],
      fun c h1 h2 => by simp [get_buck2_config_content, config_files, readConfigEntry,
        List.lookup, h1, h2],
      fun e h1 h2 => by simp [get_buck2_config_content, config_files, readConfigEntry,
        List.lookup, h1, h2]⟩

theorem get_buck2_root_ran_zero (env : Exec) (fs : FS)
    (glob_buck : String → Except String (List String)) (out err : String)
    (h : env ["buck2", "root", "--kind=project"] = .ran 0 out err) :
    get_buck2_root env fs glob_buck =
      (match (if fs.pathExists (py_strip out) then glob_buck (py_strip out)
          else .ok []) with
       | .ok files => .rootInfo (py_strip out) files
       | .error e => .rootError e) := by
  unfold get_buck2_root
  rw [run_buck2_command_ran ["root", "--kind=project"] env 0 out err h]
  rfl

theorem get_buck2_root_ran_nonzero (env : Exec) (fs : FS)
    (glob_buck : String → Except String (List String)) (rc : Int) (out err : String)
    (h : env ["buck2", "root", "--kind=project"] = .ran rc out err)
    (hrc : ¬ rc = 0) :
    get_buck2_root env fs glob_buck = .rootError err := by
  unfold get_buck2_root
  rw [run_buck2_command_ran ["root", "--kind=project"] env rc out err h]
  have hb : (rc == 0) = false := by simpa using hrc
  simp [dictGet, List.find?, isTruthy, getStrD, hb]

theorem get_buck2_root_fnf (env : Exec) (fs : FS)
    (glob_buck : String → Except String (List String))
    (h : env ["buck2", "root", "--kind=project"] = .fileNotFound) :
    get_buck2_root env fs glob_buck = .rootError buck2_not_found_msg := by
  unfold get_buck2_root
  rw [run_buck2_command_fnf ["root", "--kind=project"] env h]
  rfl

/-- C8: the project-root reader returns the trimmed root path with the
(possibly empty) BUCK-file listing when the root lookup succeeds with
stdout `/repo/root\n`; it returns an error payload equal to the captured
stderr when the lookup fails (including a failed launch); and an exception
raised during file enumeration is caught and reported as an error payload. -/
theorem c8_root_reader (env : Exec) (fs : FS)
    (glob_buck : String → Except String (List String)) (rc : Int)
    (out err e : String) (files : List String) :
    (env ["buck2", "root", "--kind=project"] = .ran 0 "/repo/root\n" err →
      (if fs.pathExists "/repo/root" then glob_buck "/repo/root" else .ok [])
          = .ok files →
      get_buck2_root env fs glob_buck = .rootInfo "/repo/root" files) ∧
    (env ["buck2", "root", "--kind=project"] = .ran rc out err → ¬ rc = 0 →
      get_buck2_root env fs glob_buck = .rootError err) ∧
    (env ["buck2", "root", "--kind=project"] = .fileNotFound →
      get_buck2_root env fs glob_buck = .rootError buck2_not_found_msg) ∧
    (env ["buck2", "root", "--kind=project"] = .ran 0 out err →
      fs.pathExists (py_strip out) = true → glob_buck (py_strip out) = .error e →
      get_buck2_root env fs glob_buck = .rootError e) := by
  have hstrip : py_strip "/repo/root\n" = "/repo/root" := by decide
  refine ⟨fun h hg => ?_, fun h hrc => get_buck2_root_ran_nonzero env fs glob_buck rc out err h hrc,
    fun h => get_buck2_root_fnf env fs glob_buck h, fun h hex hg => ?_⟩
  · rw [get_buck2_root_ran_zero env fs glob_buck "/repo/root\n" err h, hstrip, hg]
  · rw [get_buck2_root_ran_zero env fs glob_buck out err h, hex]
    simp [hg]

/-- An environment whose root lookup succeeds with stdout `/repo/root\n`. -/
def envRootW : Exec := fun _ => .ran 0 "/repo/root\n" ""

/-- A filesystem on which no path exists and every read fails. -/
def fsNoneW : FS := ⟨fun _ => false, fun _ => .error "io"⟩

/-- A glob that enumerates no files anywhere. -/
def globEmptyW : String → Except String (List String) := fun _ => .ok []

/-- Witness for C8 at concrete inputs. -/
theorem c8_root_reader_witness :
    get_buck2_root envRootW fsNoneW globEmptyW = .rootInfo "/repo/root" [] :=
  (c8_root_reader envRootW fsNoneW globEmptyW 1 "" "" "e" []).1 rfl rfl

/-- C10: when the root lookup succeeds but the trimmed stdout names a path
absent from the filesystem (the empty string included), the reader still
returns a root payload with that path and an empty file listing. -/
theorem c10_root_path_absent (env : Exec) (fs : FS)
    (glob_buck : String → Except String (List String)) (out err : String) :
    env ["buck2", "root", "--kind=project"] = .ran 0 out err →
    fs.pathExists (py_strip out) = false →
    get_buck2_root env fs glob_buck = .rootInfo (py_strip out) [] := by
  intro h hex
  rw [get_buck2_root_ran_zero env fs glob_buck out err h, hex]
  rfl

/-- An environment whose root lookup succeeds with empty stdout. -/
def envRootEmptyW : Exec := fun _ => .ran 0 "" ""

/-- Witness for C10 at concrete inputs: empty stdout, nonexistent path. -/
theorem c10_root_path_absent_witness :
    get_buck2_root envRootEmptyW fsNoneW globEmptyW = .rootInfo "" [] :=
  c10_root_path_absent envRootEmptyW fsNoneW globEmptyW "" "" rfl rfl

/-- A filesystem holding only `.buckconfig`, with content `X`. -/
def fsOneW : FS :=
  ⟨fun f => f == ".buckconfig",
   fun f => if f == ".buckconfig" then .ok "X" else .error "io"⟩

/-- Witness for C7 at concrete inputs: one file present with content `X`,
the other absent. -/
theorem c7_config_reader_witness :
    (get_buck2_config_content fsOneW).lookup ".buckconfig" = some "X" ∧
    (get_buck2_config_content fsOneW).lookup ".buckconfig.local"
        = some "File not found" :=
  ⟨((c7_config_reader fsOneW).2 ".buckconfig" (by decide)).2.1 "X" rfl rfl,
   ((c7_config_reader fsOneW).2 ".buckconfig.local" (by decide)).1 rfl⟩

/-! ### The full launch model: launch exceptions the source does not catch -/

/-- All outcomes of launching a given argv: the process runs to completion,
the launch raises FileNotFoundError, or the launch raises some other
exception (e.g. PermissionError for a present but non-executable binary)
whose rendering is the payload. -/
inductive LaunchOutcomeFull where
  | ran (returncode : Int) (stdout stderr : String)
  | fileNotFound
  | raised (e : String)

/-- The subprocess environment under the full launch model. -/
abbrev ExecFull := List String → LaunchOutcomeFull

/-- A launch exception, as the source's except-clause discriminates it. -/
inductive PyExn where
  | fileNotFoundError
  | otherError (e : String)

/-- `subprocess.run` under the full launch model. -/
def subprocess_run_full (envX : ExecFull) (cmd : List String) :
    Except PyExn (Int × String × String) :=
  match envX cmd with
  | .ran rc out err => .ok (rc, out, err)
  | .fileNotFound => .error .fileNotFoundError
  | .raised e => .error (.otherError e)

/-- `run_buck2_command` under the full launch model: the except clause at
src/main.py line 31 matches FileNotFoundError only, so any other launch
exception propagates to the caller (the `Except.error` branch). -/
def run_buck2_command_full (args : List String) (envX : ExecFull) :
    Except String Dict :=
  let cmd := ["buck2"] ++ args
  match subprocess_run_full envX cmd with
  | .ok (rc, out, err) =>
      .ok [("success", .bool (rc == 0)),
           ("stdout", .str out),
           ("stderr", .str err),
           ("returncode", .int rc),
           ("command", .str (String.intercalate " " cmd))]
  | .error .fileNotFoundError =>
      .ok [("success", .bool false),
           ("stdout", .str ""),
           ("stderr", .str buck2_not_found_msg),
           ("returncode", .int 127),
           ("command", .str (String.intercalate " " (["buck2"] ++ args)))]
  | .error (.otherError e) => .error e

/-- `buck2_build` under the full launch model: it performs no handling of
its own, so a propagated launch exception passes through. -/
def buck2_build_full (targets : String) (envX : ExecFull) : Except String Dict :=
  run_buck2_command_full ["build", targets] envX

/-- `buck2_test` under the full launch model. -/
def buck2_test_full (targets : String) (envX : ExecFull) : Except String Dict :=
  run_buck2_command_full ["test", targets] envX

/-- `buck2_query` under the full launch model: the post-processing runs only
when the runner returned; a propagated launch exception passes through. -/
def buck2_query_full (query output_format : String) (envX : ExecFull)
    (json_loads : String → Option JVal) : Except String Dict :=
  match run_buck2_command_full ["cquery", query, "--output-format", output_format] envX with
  | .error e => .error e
  | .ok result =>
      .ok (if output_format == "json" && isTruthy (dictGet result "success") then
        match json_loads (getStrD (dictGet result "stdout")) with
        | some v => dictSet result "parsed_output" v
        | none => result
      else result)

/-- `buck2_targets` under the full launch model. -/
def buck2_targets_full (pattern : String) (envX : ExecFull) : Except String Dict :=
  run_buck2_command_full ["targets", pattern] envX

/-- `get_buck2_root` under the full launch model: its `try/except Exception`
(src/main.py line 127) wraps the runner call as well, so even a launch
exception the runner lets through is converted into an error payload here. -/
def get_buck2_root_full (envX : ExecFull) (fs : FS)
    (glob_buck : String → Except String (List String)) : RootResult :=
  match run_buck2_command_full ["root", "--kind=project"] envX with
  | .error e => .rootError e
  | .ok result =>
      if isTruthy (dictGet result "success") then
        let root_path := py_strip (getStrD (dictGet result "stdout"))
        match (if fs.pathExists root_path then glob_buck root_path else .ok []) with
        | .ok files => .rootInfo root_path files
        | .error e => .rootError e
      else
        .rootError (getStrD (dictGet result "stderr"))

/-- The two-outcome environment seen by a full environment that never
raises a non-FileNotFoundError exception. -/
def projExec (envX : ExecFull) : Exec := fun cmd =>
  match envX cmd with
  | .ran rc out err => .ran rc out err
  | _ => .fileNotFound

theorem run_full_ok (args : List String) (envX : ExecFull)
    (h : ∀ e, ¬ envX ("buck2" :: args) = .raised e) :
    run_buck2_command_full args envX =
      .ok (run_buck2_command args (projExec envX)) := by
  unfold run_buck2_command_full run_buck2_command subprocess_run_full subprocess_run projExec
  cases hx : envX ("buck2" :: args) with
  | ran rc out err => simp [hx]
  | fileNotFound => simp [hx]
  | raised e => exact absurd hx (h e)

theorem query_full_ok (q fmt : String) (envX : ExecFull)
    (json_loads : String → Option JVal)
    (h : ∀ e, ¬ envX ["buck2", "cquery", q, "--output-format", fmt] = .raised e) :
    buck2_query_full q fmt envX json_loads =
      .ok (buck2_query q fmt (projExec envX) json_loads) := by
  unfold buck2_query_full
  rw [run_full_ok ["cquery", q, "--output-format", fmt] envX h]
  rfl


/-- An environment in which every launch raises PermissionError: the binary
is present on the search path but not executable. -/
def envPermW : ExecFull :=
  fun _ => .raised "PermissionError: [Errno 13] Permission denied: buck2"

/-- C3 (counterexample): with the binary present but not executable, the
launch raises PermissionError, which the runner's except clause (matching
FileNotFoundError only) does not catch: the build operation terminates with
a propagated exception, not a structured result object. -/
theorem c3_uncaught_launch_exception :
    buck2_build_full "//..." envPermW =
      .error "PermissionError: [Errno 13] Permission denied: buck2" := rfl

/-- C3 (amended): when the launch either completes or raises
FileNotFoundError, every operation returns a structured result describing
the failure; a launch exception other than FileNotFoundError propagates
uncaught from the four operations, while the project-root reader's
catch-all still converts it (and every other outcome) into a structured
payload. -/
theorem c3_exception_policy (targets q fmt pat : String) (envX : ExecFull)
    (json_loads : String → Option JVal) (fs : FS)
    (glob_buck : String → Except String (List String)) :
    ((∀ e, ¬ envX ["buck2", "build", targets] = .raised e) →
      ∃ d, buck2_build_full targets envX = .ok d ∧ structuredResult d) ∧
    ((∀ e, ¬ envX ["buck2", "test", targets] = .raised e) →
      ∃ d, buck2_test_full targets envX = .ok d ∧ structuredResult d) ∧
    ((∀ e, ¬ envX ["buck2", "cquery", q, "--output-format", fmt] = .raised e) →
      ∃ d, buck2_query_full q fmt envX json_loads = .ok d ∧ structuredResult d) ∧
    ((∀ e, ¬ envX ["buck2", "targets", pat] = .raised e) →
      ∃ d, buck2_targets_full pat envX = .ok d ∧ structuredResult d) ∧
    (∀ e, envX ["buck2", "build", targets] = .raised e →
      buck2_build_full targets envX = .error e) ∧
    (∀ e, envX ["buck2", "test", targets] = .raised e →
      buck2_test_full targets envX = .error e) ∧
    (∀ e, envX ["buck2", "cquery", q, "--output-format", fmt] = .raised e →
      buck2_query_full q fmt envX json_loads = .error e) ∧
    (∀ e, envX ["buck2", "targets", pat] = .raised e →
      buck2_targets_full pat envX = .error e) ∧
    (∀ e, envX ["buck2", "root", "--kind=project"] = .raised e →
      get_buck2_root_full envX fs glob_buck = .rootError e) ∧
    ((∃ p files, get_buck2_root_full envX fs glob_buck = .rootInfo p files) ∨
      (∃ e, get_buck2_root_full envX fs glob_buck = .rootError e)) := by
  refine ⟨fun h => ⟨run_buck2_command ["build", targets] (projExec envX),
      run_full_ok ["build", targets] envX h, run_structuredResult _ _⟩,
    fun h => ⟨run_buck2_command ["test", targets] (projExec envX),
      run_full_ok ["test", targets] envX h, run_structuredResult _ _⟩,
    fun h => ⟨buck2_query q fmt (projExec envX) json_loads,
      query_full_ok q fmt envX json_loads h, buck2_query_structuredResult q fmt _ json_loads⟩,
    fun h => ⟨run_buck2_command ["targets", pat] (projExec envX),
      run_full_ok ["targets", pat] envX h, run_structuredResult _ _⟩,
    fun e hx => ?_, fun e hx => ?_, fun e hx => ?_, fun e hx => ?_, fun e hx => ?_, ?_⟩
  · simp [buck2_build_full, run_buck2_command_full, subprocess_run_full, hx]
  · simp [buck2_test_full, run_buck2_command_full, subprocess_run_full, hx]
  · simp [buck2_query_full, run_buck2_command_full, subprocess_run_full, hx]
  · simp [buck2_targets_full, run_buck2_command_full, subprocess_run_full, hx]
  · simp [get_buck2_root_full, run_buck2_command_full, subprocess_run_full, hx]
  · cases hr : get_buck2_root_full envX fs glob_buck with
    | rootInfo p files => exact Or.inl ⟨p, files, rfl⟩
    | rootError e => exact Or.inr ⟨e, rfl⟩

/-- A full environment in which no argv can be launched (FileNotFoundError). -/
def envFullFnfW : ExecFull := fun _ => .fileNotFound

/-- Witness for C3 (amended) at concrete inputs: a FileNotFoundError launch
is handled into a structured result, while a PermissionError launch
propagates from the build handler and is caught only by the root reader. -/
theorem c3_exception_policy_witness :
    (∃ d, buck2_build_full "//..." envFullFnfW = .ok d ∧ structuredResult d) ∧
    buck2_build_full "//..." envPermW =
      .error "PermissionError: [Errno 13] Permission denied: buck2" ∧
    get_buck2_root_full envPermW fsNoneW globEmptyW =
      .rootError "PermissionError: [Errno 13] Permission denied: buck2" :=
  ⟨(c3_exception_policy "//..." "deps(//...)" "json" "//..." envFullFnfW
      (fun _ => none) fsNoneW globEmptyW).1 (fun e h => nomatch h),
   (c3_exception_policy "//..." "deps(//...)" "json" "//..." envPermW
      (fun _ => none) fsNoneW globEmptyW).2.2.2.2.1
      "PermissionError: [Errno 13] Permission denied: buck2" rfl,
   (c3_exception_policy "//..." "deps(//...)" "json" "//..." envPermW
      (fun _ => none) fsNoneW globEmptyW).2.2.2.2.2.2.2.2.1
      "PermissionError: [Errno 13] Permission denied: buck2" rfl⟩
